import Mathlib

/-!
# SDL backend adapter (`src/sdl.cpp`)

A shallow embedding of the class `SdlBackend` of `src/sdl.cpp` and of the part
of the SDL library it talks to.

* The SDL library is a state `Sdl`: the pending event queue, the live
  textures, and the list of library calls made so far.
* The adapter is a record `SdlBackend` of its member variables; each method is
  a function taking the library state and the adapter and returning the new
  ones together with the method's return value.
* Pointers are natural numbers, `0` being the null pointer.
* `Quit` terminates the process: a method that calls it returns `none`.
* The `SPDLOG_INFO` lines write to a log that no method reads; they are left
  out.
-/

namespace SdlGame

/-! ## Event type codes -/

/-- The enumerators of `SDL_EventType` that `HandleEvent` names, with the facts
about them that the header `SDL_events.h` fixes: the application events come
before the window events, the three window events named in the `switch` lie in
the window range, and (being `case` labels of one `switch`) they are pairwise
different. -/
structure EventCodes where
  SDL_EVENT_QUIT : Nat
  SDL_EVENT_WINDOW_FIRST : Nat
  SDL_EVENT_WINDOW_LAST : Nat
  SDL_EVENT_WINDOW_FOCUS_GAINED : Nat
  SDL_EVENT_WINDOW_FOCUS_LOST : Nat
  SDL_EVENT_WINDOW_RESIZED : Nat
  quit_lt_first : SDL_EVENT_QUIT < SDL_EVENT_WINDOW_FIRST
  first_le_last : SDL_EVENT_WINDOW_FIRST ≤ SDL_EVENT_WINDOW_LAST
  gained_ge_first : SDL_EVENT_WINDOW_FIRST ≤ SDL_EVENT_WINDOW_FOCUS_GAINED
  gained_le_last : SDL_EVENT_WINDOW_FOCUS_GAINED ≤ SDL_EVENT_WINDOW_LAST
  lost_ge_first : SDL_EVENT_WINDOW_FIRST ≤ SDL_EVENT_WINDOW_FOCUS_LOST
  lost_le_last : SDL_EVENT_WINDOW_FOCUS_LOST ≤ SDL_EVENT_WINDOW_LAST
  resized_ge_first : SDL_EVENT_WINDOW_FIRST ≤ SDL_EVENT_WINDOW_RESIZED
  resized_le_last : SDL_EVENT_WINDOW_RESIZED ≤ SDL_EVENT_WINDOW_LAST
  gained_ne_lost : SDL_EVENT_WINDOW_FOCUS_GAINED ≠ SDL_EVENT_WINDOW_FOCUS_LOST
  gained_ne_resized : SDL_EVENT_WINDOW_FOCUS_GAINED ≠ SDL_EVENT_WINDOW_RESIZED
  lost_ne_resized : SDL_EVENT_WINDOW_FOCUS_LOST ≠ SDL_EVENT_WINDOW_RESIZED

/-- A numbering as in the `SDL_events.h` of SDL3: `SDL_EVENT_QUIT = 0x100`, and
the window events run from `SDL_EVENT_WINDOW_SHOWN = 0x202`. The numbers of the
later window events differ between revisions of SDL3; what is evaluated with
this numbering below depends only on the order of the codes. -/
def sdl3 : EventCodes where
  SDL_EVENT_QUIT := 0x100
  SDL_EVENT_WINDOW_FIRST := 0x202
  SDL_EVENT_WINDOW_LAST := 0x21A
  SDL_EVENT_WINDOW_FOCUS_GAINED := 0x20E
  SDL_EVENT_WINDOW_FOCUS_LOST := 0x20F
  SDL_EVENT_WINDOW_RESIZED := 0x206
  quit_lt_first := by decide
  first_le_last := by decide
  gained_ge_first := by decide
  gained_le_last := by decide
  lost_ge_first := by decide
  lost_le_last := by decide
  resized_ge_first := by decide
  resized_le_last := by decide
  gained_ne_lost := by decide
  gained_ne_resized := by decide
  lost_ne_resized := by decide

/-! ## Events -/

/-- The words of the union `SDL_Event` that the adapter reads. `type` is
`event.type`, which is also `event.window.type` (every member of the union
starts with the type word). `windowID`, `data1`, `data2` are
`event.window.windowID`, `event.window.data1`, `event.window.data2`: the words
of the union at those offsets, which `HandleEvent` reads whatever the type of
the event is. -/
structure SDL_Event where
  type : Nat
  windowID : Nat
  data1 : Int
  data2 : Int
  deriving DecidableEq, Repr

/-! ## Adapter state -/

/-- The member `m_windowInfo`: window handle, size, focus flag. -/
structure WindowInfo where
  handle : Nat
  width : Int
  height : Int
  focused : Bool
  deriving DecidableEq, Repr

/-- The member variables of `SdlBackend`. -/
structure SdlBackend where
  m_window : Nat
  m_renderer : Nat
  m_windowId : Nat
  m_windowInfo : WindowInfo
  deriving DecidableEq, Repr

/-- The assignment `m_windowInfo.focused = v`. -/
def SdlBackend.setFocused (b : SdlBackend) (v : Bool) : SdlBackend :=
  { b with m_windowInfo := { b.m_windowInfo with focused := v } }

/-- The method `SdlBackend::HandleEvent`. The condition is the source's
`type >= FIRST || type <= LAST && windowID == m_windowId`, in which `&&` binds
tighter than `||`. An event that enters the first branch and matches no `case`
leaves the `switch`, skips the `else if`, and reaches the final
`return true`. -/
def HandleEvent (c : EventCodes) (b : SdlBackend) (event : SDL_Event) :
    Bool × SdlBackend :=
  if event.type ≥ c.SDL_EVENT_WINDOW_FIRST ∨
      (event.type ≤ c.SDL_EVENT_WINDOW_LAST ∧ event.windowID = b.m_windowId) then
    if event.type = c.SDL_EVENT_WINDOW_FOCUS_GAINED then
      (true, b.setFocused true)
    else if event.type = c.SDL_EVENT_WINDOW_FOCUS_LOST then
      (true, b.setFocused false)
    else if event.type = c.SDL_EVENT_WINDOW_RESIZED then
      (true, b)
    else
      (true, b)
  else if event.type = c.SDL_EVENT_QUIT then
    (false, b)
  else
    (true, b)

/-! ## The SDL library -/

/-- The rectangle type `SDL_FRect`. Its fields are single-precision floats;
every value this program stores in one is the conversion of an unsigned 32-bit
integer, which is a whole number, so a field holds the exact numeric value of
the float as a natural number. -/
structure SDL_FRect where
  x : Nat
  y : Nat
  w : Nat
  h : Nat
  deriving DecidableEq, Repr

/-- The implicit conversion from `uint32_t` to `float` (24 significant bits,
round to nearest, ties to even), as the exact value of the resulting float. -/
def u32ToFloat (n : Nat) : Nat :=
  if n < 2 ^ 24 then n
  else
    let ulp := 2 ^ (Nat.log2 n - 23)
    let q := n / ulp
    let r := n % ulp
    if 2 * r < ulp then q * ulp
    else if 2 * r > ulp then (q + 1) * ulp
    else if q % 2 = 0 then q * ulp
    else (q + 1) * ulp

/-- An unsigned integer that a float holds exactly: one below `2 ^ 24`, or a
multiple of the spacing `2 ^ (log2 n - 23)` that floats have at its
magnitude. -/
def isFloat32 (n : Nat) : Prop :=
  n < 2 ^ 24 ∨ n % 2 ^ (Nat.log2 n - 23) = 0

instance (n : Nat) : Decidable (isFloat32 n) := by
  unfold isFloat32; infer_instance

/-- The implicit conversion from `uint32_t` to `int` (32 bits, two's
complement): a value from `2 ^ 31` up becomes negative. -/
def u32ToInt (n : Nat) : Int :=
  if n < 2 ^ 31 then (n : Int) else (n : Int) - 2 ^ 32

/-- A texture of a 4-byte pixel format: its size and its bytes, rows first,
`w * 4` bytes a row. -/
structure SDL_Texture where
  w : Nat
  h : Nat
  bytes : List Nat
  deriving DecidableEq, Repr

/-- The library calls the adapter makes, with their arguments (a null rectangle
pointer is `none`). -/
inductive SdlCall where
  | CreateTexture (renderer : Nat) (w h : Int) (result : Nat)
  | UpdateTexture (texture pitch : Nat)
  | DestroyTexture (texture : Nat)
  | SetRenderDrawColor (renderer r g b a : Nat)
  | RenderClear (renderer : Nat)
  | SetRenderTarget (renderer target : Nat)
  | RenderTexture (renderer texture : Nat) (srcrect : Option SDL_FRect) (dstrect : SDL_FRect)
  | RenderPresent (renderer : Nat)
  deriving DecidableEq, Repr

/-- The state of the library: the events waiting to be polled, the pointers
that the coming `SDL_CreateTexture` calls will return (`0`, or nothing left,
is a failed creation), the live textures by pointer, and the calls made so far,
oldest first. -/
structure Sdl where
  pending : List SDL_Event
  createResults : List Nat
  textures : List (Nat × SDL_Texture)
  calls : List SdlCall
  deriving DecidableEq, Repr

/-- Append one call to the record of calls. -/
def Sdl.call (w : Sdl) (k : SdlCall) : Sdl :=
  { w with calls := w.calls ++ [k] }

/-- The library call `SDL_PollEvent`: takes the oldest pending event off the queue, or reports
that there is none. -/
def SDL_PollEvent (w : Sdl) : Option (SDL_Event × Sdl) :=
  match w.pending with
  | [] => none
  | e :: rest => some (e, { w with pending := rest })

/-- The library call `SDL_CreateTexture` for the format `SDL_PIXELFORMAT_RGBA8888` and the
access `SDL_TEXTUREACCESS_TARGET`: returns the pointer of the new texture, or
null. The sizes are of type `int`. The contents of a new texture are
unspecified; they are zero here. -/
def SDL_CreateTexture (w : Sdl) (renderer : Nat) (width height : Int) : Nat × Sdl :=
  let p := w.createResults.headD 0
  let w1 := { w with createResults := w.createResults.tail }
  let w2 := w1.call (.CreateTexture renderer width height p)
  if p = 0 then (0, w2)
  else (p, { w2 with textures :=
    (p, { w := width.toNat, h := height.toNat,
          bytes := List.replicate (width.toNat * height.toNat * 4) 0 })
      :: w2.textures })

/-- The bytes a whole-texture `SDL_UpdateTexture` stores in a texture of
`tw` by `th` 4-byte pixels: row `r` of the texture is the `tw * 4` bytes of the
source that start at byte `r * pitch`. A read past the end of the source is
undefined in C; it gives `0` here. -/
def uploadBytes (tw th : Nat) (src : List Nat) (pitch : Nat) : List Nat :=
  (List.range (tw * th * 4)).map fun i =>
    src.getD ((i / (tw * 4)) * pitch + i % (tw * 4)) 0

/-- The library call `SDL_UpdateTexture` with a null rectangle (the whole texture). -/
def SDL_UpdateTexture (w : Sdl) (texture : Nat) (pixels : List Nat) (pitch : Nat) : Sdl :=
  let w1 := w.call (.UpdateTexture texture pitch)
  { w1 with textures := w1.textures.map fun (p, t) =>
      if p = texture then (p, { t with bytes := uploadBytes t.w t.h pixels pitch })
      else (p, t) }

/-- The library call `SDL_DestroyTexture`: the texture is no longer live. -/
def SDL_DestroyTexture (w : Sdl) (texture : Nat) : Sdl :=
  let w1 := w.call (.DestroyTexture texture)
  { w1 with textures := w1.textures.filter fun pt => pt.1 ≠ texture }

/-- The four bytes of the texel at row `r`, column `c` of a texture. -/
def SDL_Texture.texel (t : SDL_Texture) (r c : Nat) : List Nat :=
  (List.range 4).map fun k => t.bytes.getD ((r * t.w + c) * 4 + k) 0

/-! ## Images and sprites -/

/-- Modelled from the spec: the class `Image` of `image.h`, which is not among
the sources. A platform-agnostic pixel buffer with its dimensions (`GetSize`,
`GetPixels`) and the opaque backend handle `backendData` that the adapter
attaches; the buffer is a list of bytes, four to a pixel. -/
structure Image where
  width : Nat
  height : Nat
  pixels : List Nat
  backendData : Nat
  deriving DecidableEq, Repr

/-- Modelled from the spec: the accessor `Image::GetSize` of `image.h`, which
gives the image's dimensions. -/
def Image.GetSize (image : Image) : Nat × Nat := (image.width, image.height)

/-- Modelled from the spec: the accessor `Image::GetPixels` of `image.h`, which
gives the image's pixel buffer. -/
def Image.GetPixels (image : Image) : List Nat := image.pixels

/-- The four bytes of the pixel of index `i` of the image's buffer. -/
def Image.pixel (image : Image) (i : Nat) : List Nat :=
  (List.range 4).map fun k => image.pixels.getD (i * 4 + k) 0

/-- Modelled from the spec: the class `Sprite` of `sprite.h`, which is not
among the sources. A rectangular region of a shared image, the sheet, with its
own position and width and height, unsigned 32-bit like an image's size. -/
structure Sprite where
  sheet : Image
  x : Nat
  y : Nat
  width : Nat
  height : Nat
  deriving DecidableEq, Repr

/-! ## The adapter's methods -/

/-- What the library answers during construction: the return codes of
`SDL_Init` and `SDL_CreateWindowAndRenderer`, the two pointers the latter
stores, and the answers of `SDL_GetWindowID` and `SDL_GetWindowSize`. -/
structure InitAnswers where
  initResult : Int
  createResult : Int
  window : Nat
  renderer : Nat
  windowId : Nat
  width : Int
  height : Int
  deriving DecidableEq, Repr

/-- The constructor `SdlBackend::SdlBackend`; `none` when it calls `Quit`. -/
def SdlBackend.new (a : InitAnswers) : Option SdlBackend :=
  if a.initResult < 0 then none
  else if a.createResult < 0 then none
  else some
    { m_window := a.window
      m_renderer := a.renderer
      m_windowId := a.windowId
      m_windowInfo :=
        { handle := a.window, width := a.width, height := a.height, focused := true } }

/-- The method `SdlBackend::SetupImage`; `none` when it calls `Quit`. The
sizes, read as `uint32_t`, are converted to the `int` parameters of
`SDL_CreateTexture`. -/
def SetupImage (w : Sdl) (b : SdlBackend) (image : Image) : Option (Sdl × Image) :=
  let (imageWidth, imageHeight) := image.GetSize
  let (p, w1) := SDL_CreateTexture w b.m_renderer (u32ToInt imageWidth) (u32ToInt imageHeight)
  let image1 := { image with backendData := p }
  if image1.backendData = 0 then none
  else some (SDL_UpdateTexture w1 image1.backendData image1.GetPixels 4, image1)

/-- The method `SdlBackend::CleanupImage`. -/
def CleanupImage (w : Sdl) (image : Image) : Sdl × Image :=
  let w1 := if image.backendData ≠ 0 then SDL_DestroyTexture w image.backendData else w
  (w1, { image with backendData := 0 })

/-- The loop of `SdlBackend::Update` over the pending events: the returned
flag, the events still pending, the adapter. -/
def UpdateLoop (c : EventCodes) (b : SdlBackend) :
    List SDL_Event → Bool × List SDL_Event × SdlBackend
  | [] => (true, [], b)
  | event :: rest =>
    if (HandleEvent c b event).1 = false then (false, rest, (HandleEvent c b event).2)
    else UpdateLoop c (HandleEvent c b event).2 rest

/-- The method `SdlBackend::Update`: polls and handles events until the queue is empty or
`HandleEvent` returns false. -/
def Update (c : EventCodes) (w : Sdl) (b : SdlBackend) : Bool × Sdl × SdlBackend :=
  let r := UpdateLoop c b w.pending
  (r.1, { w with pending := r.2.1 }, r.2.2)

/-- The method `SdlBackend::BeginRender`. -/
def BeginRender (w : Sdl) (b : SdlBackend) : Bool × Sdl × SdlBackend :=
  if b.m_windowInfo.focused = false then (false, w, b)
  else
    let w1 := w.call (.SetRenderDrawColor b.m_renderer 255 255 255 255)
    let w2 := w1.call (.RenderClear b.m_renderer)
    (true, w2, b)

/-- The method `SdlBackend::DrawImage`. -/
def DrawImage (w : Sdl) (b : SdlBackend) (image : Image) (x y : Nat) : Sdl :=
  let w1 := w.call (.SetRenderTarget b.m_renderer 0)
  let (imageWidth, imageHeight) := image.GetSize
  let region : SDL_FRect :=
    { x := u32ToFloat x, y := u32ToFloat y,
      w := u32ToFloat imageWidth, h := u32ToFloat imageHeight }
  w1.call (.RenderTexture b.m_renderer image.backendData none region)

/-- The method `SdlBackend::DrawSprite`. -/
def DrawSprite (w : Sdl) (b : SdlBackend) (sprite : Sprite) (x y : Nat) : Sdl :=
  let w1 := w.call (.SetRenderTarget b.m_renderer 0)
  let srcRegion : SDL_FRect :=
    { x := u32ToFloat sprite.x, y := u32ToFloat sprite.y,
      w := u32ToFloat sprite.width, h := u32ToFloat sprite.height }
  let destRegion : SDL_FRect :=
    { x := u32ToFloat x, y := u32ToFloat y,
      w := u32ToFloat sprite.width, h := u32ToFloat sprite.height }
  w1.call (.RenderTexture b.m_renderer sprite.sheet.backendData (some srcRegion) destRegion)

/-- The method `SdlBackend::EndRender`. -/
def EndRender (w : Sdl) (b : SdlBackend) : Sdl :=
  w.call (.RenderPresent b.m_renderer)

/-! ## Notions the properties are stated with -/

/-- The adapter after `HandleEvent` has been called on each event of a list
in order. -/
def handleEvents (c : EventCodes) (b : SdlBackend) : List SDL_Event → SdlBackend
  | [] => b
  | e :: es => handleEvents c (HandleEvent c b e).2 es

/-- The conjunction of the results of `HandleEvent` called on each event of a
list in order. -/
def handleResults (c : EventCodes) (b : SdlBackend) : List SDL_Event → Bool
  | [] => true
  | e :: es => (HandleEvent c b e).1 && handleResults c (HandleEvent c b e).2 es

/-- The focus value set by the last focus-gained or focus-lost event of a
list, or `init` when the list has none. -/
def lastFocus (c : EventCodes) (init : Bool) : List SDL_Event → Bool
  | [] => init
  | e :: es =>
    lastFocus c
      (if e.type = c.SDL_EVENT_WINDOW_FOCUS_GAINED then true
       else if e.type = c.SDL_EVENT_WINDOW_FOCUS_LOST then false
       else init) es

/-- An event of type `SDL_EVENT_QUIT`. -/
def isQuit (c : EventCodes) (e : SDL_Event) : Prop := e.type = c.SDL_EVENT_QUIT

/-- An event of type `SDL_EVENT_WINDOW_FOCUS_GAINED` or
`SDL_EVENT_WINDOW_FOCUS_LOST`. -/
def isFocus (c : EventCodes) (e : SDL_Event) : Prop :=
  e.type = c.SDL_EVENT_WINDOW_FOCUS_GAINED ∨ e.type = c.SDL_EVENT_WINDOW_FOCUS_LOST

instance (c : EventCodes) (e : SDL_Event) : Decidable (isQuit c e) := by
  unfold isQuit; infer_instance

instance (c : EventCodes) (e : SDL_Event) : Decidable (isFocus c e) := by
  unfold isFocus; infer_instance

/-! ## Sample inputs -/

/-- An adapter as the constructor leaves it: window id 1, a 1024 by 576 window,
focused. -/
def sampleBackend : SdlBackend :=
  { m_window := 0x1000, m_renderer := 0x2000, m_windowId := 1,
    m_windowInfo := { handle := 0x1000, width := 1024, height := 576, focused := true } }

/-- A library state with the given events pending and nothing else. -/
def sdlWithEvents (q : List SDL_Event) : Sdl :=
  { pending := q, createResults := [], textures := [], calls := [] }

/-- A quit event whose window-id word is 1. -/
def quitWord1 : SDL_Event := { type := sdl3.SDL_EVENT_QUIT, windowID := 1, data1 := 0, data2 := 0 }

/-- A quit event whose window-id word is 0. -/
def quitWord0 : SDL_Event := { type := sdl3.SDL_EVENT_QUIT, windowID := 0, data1 := 0, data2 := 0 }

/-- A focus-lost event of window 2. -/
def focusLostOfWindow2 : SDL_Event :=
  { type := sdl3.SDL_EVENT_WINDOW_FOCUS_LOST, windowID := 2, data1 := 0, data2 := 0 }

/-- A focus-lost event of window 1. -/
def focusLostOfWindow1 : SDL_Event :=
  { type := sdl3.SDL_EVENT_WINDOW_FOCUS_LOST, windowID := 1, data1 := 0, data2 := 0 }

/-- A resize event of window 1, to 800 by 600. -/
def resizedOfWindow1 : SDL_Event :=
  { type := sdl3.SDL_EVENT_WINDOW_RESIZED, windowID := 1, data1 := 800, data2 := 600 }

/-- A key-down event (`SDL_EVENT_KEY_DOWN = 0x300`) of window 1. -/
def keyDownOfWindow1 : SDL_Event := { type := 0x300, windowID := 1, data1 := 0, data2 := 0 }

/-- A 2 by 2 image whose sixteen bytes are 0, 1, ..., 15: pixel `i` is the
bytes `4i .. 4i+3`. No texture is bound. -/
def image2x2 : Image := { width := 2, height := 2, pixels := List.range 16, backendData := 0 }

/-- A sprite of the sample image used as a sheet: the 8 by 8 region at
(16, 32). -/
def sampleSprite : Sprite := { sheet := image2x2, x := 16, y := 32, width := 8, height := 8 }

/-- A library state whose next `SDL_CreateTexture` returns the pointer
`0x3000`. -/
def sdlReadyToCreate : Sdl :=
  { pending := [], createResults := [0x3000], textures := [], calls := [] }

/-! ## Facts about `HandleEvent` -/

theorem setFocused_self (b : SdlBackend) : b.setFocused b.m_windowInfo.focused = b := rfl

theorem setFocused_setFocused (b : SdlBackend) (u v : Bool) :
    (b.setFocused u).setFocused v = b.setFocused v := rfl

theorem setFocused_focused (b : SdlBackend) (v : Bool) :
    (b.setFocused v).m_windowInfo.focused = v := rfl

/-- The method `HandleEvent` changes nothing of the adapter except the focus flag, and the
flag becomes the value of the event when it is a focus event. -/
theorem HandleEvent_snd (c : EventCodes) (b : SdlBackend) (e : SDL_Event) :
    (HandleEvent c b e).2 = b.setFocused (lastFocus c b.m_windowInfo.focused [e]) := by
  have hg := c.gained_ge_first
  have hl := c.lost_ge_first
  unfold HandleEvent lastFocus lastFocus
  by_cases h1 : e.type = c.SDL_EVENT_WINDOW_FOCUS_GAINED
  · have : e.type ≥ c.SDL_EVENT_WINDOW_FIRST := by omega
    simp [h1, this, hg]
  · by_cases h2 : e.type = c.SDL_EVENT_WINDOW_FOCUS_LOST
    · have : e.type ≥ c.SDL_EVENT_WINDOW_FIRST := by omega
      simp [h1, h2, hl, c.gained_ne_lost.symm]
    · simp only [h1, h2, if_false]
      split_ifs <;> rfl

/-- The method `HandleEvent` returns false exactly on an event of type quit whose
window-id word is not the adapter's window id. -/
theorem HandleEvent_fst (c : EventCodes) (b : SdlBackend) (e : SDL_Event) :
    (HandleEvent c b e).1 = false ↔
      e.type = c.SDL_EVENT_QUIT ∧ e.windowID ≠ b.m_windowId := by
  have h1 := c.quit_lt_first
  have h2 := c.first_le_last
  unfold HandleEvent
  constructor
  · intro h
    split_ifs at h with ha hb hc hd he
    refine ⟨he, ?_⟩
    intro hw
    exact ha (Or.inr ⟨by omega, hw⟩)
  · rintro ⟨hq, hw⟩
    have ha : ¬ (e.type ≥ c.SDL_EVENT_WINDOW_FIRST ∨
        (e.type ≤ c.SDL_EVENT_WINDOW_LAST ∧ e.windowID = b.m_windowId)) := by
      rintro (h | ⟨_, h⟩)
      · omega
      · exact hw h
    rw [if_neg ha, if_pos hq]

theorem HandleEvent_windowId (c : EventCodes) (b : SdlBackend) (e : SDL_Event) :
    (HandleEvent c b e).2.m_windowId = b.m_windowId := by
  rw [HandleEvent_snd]; rfl

theorem handleEvents_eq (c : EventCodes) (b : SdlBackend) (evs : List SDL_Event) :
    handleEvents c b evs = b.setFocused (lastFocus c b.m_windowInfo.focused evs) := by
  induction evs generalizing b with
  | nil => rfl
  | cons e es ih =>
    simp only [handleEvents]
    rw [ih, HandleEvent_snd, setFocused_setFocused, setFocused_focused]
    rfl

theorem handleEvents_append (c : EventCodes) (b : SdlBackend) (xs ys : List SDL_Event) :
    handleEvents c b (xs ++ ys) = handleEvents c (handleEvents c b xs) ys := by
  induction xs generalizing b with
  | nil => rfl
  | cons e es ih => simp only [List.cons_append, handleEvents]; exact ih _

/-- The loop of `Update` written with `SDL_PollEvent`, as in the source: poll;
when there is no event return true; when `HandleEvent` returns false return
false; otherwise go round again. -/
theorem Update_poll (c : EventCodes) (w : Sdl) (b : SdlBackend) :
    Update c w b =
      match SDL_PollEvent w with
      | none => (true, w, b)
      | some (event, w1) =>
        if (HandleEvent c b event).1 = false then (false, w1, (HandleEvent c b event).2)
        else Update c w1 (HandleEvent c b event).2 := by
  obtain ⟨pending, cr, tx, calls⟩ := w
  cases pending with
  | nil => rfl
  | cons e rest =>
    simp only [Update, SDL_PollEvent, UpdateLoop]
    split_ifs <;> rfl

/-! ## Facts about the loop of `Update` -/

theorem UpdateLoop_fst (c : EventCodes) (b : SdlBackend) (q : List SDL_Event) :
    (UpdateLoop c b q).1 = handleResults c b q := by
  induction q generalizing b with
  | nil => rfl
  | cons e es ih =>
    simp only [UpdateLoop, handleResults]
    by_cases h : (HandleEvent c b e).1 = false
    · simp [h]
    · simp only [Bool.not_eq_false] at h
      simp [h, ih]

theorem UpdateLoop_of_all_true (c : EventCodes) (b : SdlBackend) (q : List SDL_Event)
    (h : handleResults c b q = true) :
    UpdateLoop c b q = (true, [], handleEvents c b q) := by
  induction q generalizing b with
  | nil => rfl
  | cons e es ih =>
    simp only [handleResults, Bool.and_eq_true] at h
    simp only [UpdateLoop, handleEvents, h.1]
    exact ih _ h.2

theorem UpdateLoop_at_first_stop (c : EventCodes) (b : SdlBackend)
    (pre : List SDL_Event) (e : SDL_Event) (post : List SDL_Event)
    (hpre : handleResults c b pre = true)
    (he : (HandleEvent c (handleEvents c b pre) e).1 = false) :
    UpdateLoop c b (pre ++ e :: post) =
      (false, post, (HandleEvent c (handleEvents c b pre) e).2) := by
  induction pre generalizing b with
  | nil =>
    simp only [handleEvents] at he
    simp [UpdateLoop, he, handleEvents]
  | cons x xs ih =>
    simp only [handleResults, Bool.and_eq_true] at hpre
    simp only [handleEvents] at he ⊢
    simp only [List.cons_append, UpdateLoop, hpre.1]
    exact ih _ hpre.2 he

theorem exists_first_stop (c : EventCodes) (b : SdlBackend) (q : List SDL_Event)
    (h : handleResults c b q = false) :
    ∃ pre e post, q = pre ++ e :: post ∧ handleResults c b pre = true ∧
      (HandleEvent c (handleEvents c b pre) e).1 = false := by
  induction q generalizing b with
  | nil => simp [handleResults] at h
  | cons x xs ih =>
    by_cases hx : (HandleEvent c b x).1 = false
    · exact ⟨[], x, xs, rfl, rfl, hx⟩
    · simp only [Bool.not_eq_false] at hx
      simp only [handleResults, hx, Bool.true_and] at h
      obtain ⟨pre, e, post, hq, hpre, he⟩ := ih _ h
      refine ⟨x :: pre, e, post, by rw [hq]; rfl, ?_, he⟩
      simp [handleResults, hx, hpre]

/-- An event queue holding a quit event whose window-id word is not the
adapter's window id makes `Update` return false, with exactly the events before
the first such event handled, in order. -/
theorem Update_false_at_foreign_quit (c : EventCodes) (w : Sdl) (b : SdlBackend)
    (pre : List SDL_Event) (e : SDL_Event) (post : List SDL_Event)
    (hq : w.pending = pre ++ e :: post)
    (hpre : ∀ x ∈ pre, ¬ (x.type = c.SDL_EVENT_QUIT ∧ x.windowID ≠ b.m_windowId))
    (he : e.type = c.SDL_EVENT_QUIT) (hw : e.windowID ≠ b.m_windowId) :
    (Update c w b).1 = false ∧ (Update c w b).2.2 = handleEvents c b pre := by
  have hres : ∀ (xs : List SDL_Event) (b0 : SdlBackend), b0.m_windowId = b.m_windowId →
      (∀ x ∈ xs, ¬ (x.type = c.SDL_EVENT_QUIT ∧ x.windowID ≠ b.m_windowId)) →
      handleResults c b0 xs = true := by
    intro xs
    induction xs with
    | nil => intros; rfl
    | cons x xs ih =>
      intro b0 hb0 hall
      have hx : (HandleEvent c b0 x).1 = true := by
        have := hall x (List.mem_cons_self _ _)
        rw [← hb0, ← HandleEvent_fst c b0 x] at this
        simpa using this
      simp only [handleResults, hx, Bool.true_and]
      exact ih _ (by rw [HandleEvent_windowId, hb0])
        (fun y hy => hall y (List.mem_cons_of_mem _ hy))
  have hid : (handleEvents c b pre).m_windowId = b.m_windowId := by
    rw [handleEvents_eq]; rfl
  have hstop : (HandleEvent c (handleEvents c b pre) e).1 = false :=
    (HandleEvent_fst c _ e).2 ⟨he, by rw [hid]; exact hw⟩
  have hloop := UpdateLoop_at_first_stop c b pre e post (hres pre b rfl hpre) hstop
  unfold Update
  rw [hq, hloop]
  refine ⟨rfl, ?_⟩
  show (HandleEvent c (handleEvents c b pre) e).2 = _
  rw [HandleEvent_snd]
  have hne1 : e.type ≠ c.SDL_EVENT_WINDOW_FOCUS_GAINED := by
    have := c.quit_lt_first; have := c.gained_ge_first; omega
  have hne2 : e.type ≠ c.SDL_EVENT_WINDOW_FOCUS_LOST := by
    have := c.quit_lt_first; have := c.lost_ge_first; omega
  simp only [lastFocus, hne1, hne2, if_false]
  exact setFocused_self _

/-! ## Facts about the texture upload -/

theorem uploadBytes_getD (tw th : Nat) (src : List Nat) (pitch r c k : Nat)
    (hr : r < th) (hc : c < tw) (hk : k < 4) :
    (uploadBytes tw th src pitch).getD ((r * tw + c) * 4 + k) 0 =
      src.getD (r * pitch + (c * 4 + k)) 0 := by
  have h1 : r * tw + c < tw * th := by
    have : (r + 1) * tw ≤ th * tw := Nat.mul_le_mul_right tw hr
    have h2 : (r + 1) * tw = r * tw + tw := by ring
    have h3 : th * tw = tw * th := Nat.mul_comm _ _
    omega
  have hlt : (r * tw + c) * 4 + k < tw * th * 4 := by omega
  have hj : (r * tw + c) * 4 + k = (c * 4 + k) + r * (tw * 4) := by ring
  have hoff : c * 4 + k < tw * 4 := by omega
  have hdiv : ((r * tw + c) * 4 + k) / (tw * 4) = r := by
    rw [hj, Nat.add_mul_div_right _ _ (by omega), Nat.div_eq_of_lt hoff, Nat.zero_add]
  have hmod : ((r * tw + c) * 4 + k) % (tw * 4) = c * 4 + k := by
    rw [hj, Nat.add_mul_mod_self_right, Nat.mod_eq_of_lt hoff]
  unfold uploadBytes
  rw [List.getD_eq_getElem _ _ (by simpa using hlt)]
  simp only [List.getElem_map, List.getElem_range]
  rw [hdiv, hmod]

/-- What the upload of `SetupImage` stores: with the pitch 4 that the source
passes, the texel at row `r`, column `c` is the pixel of index `r + c` of the
buffer. -/
theorem texel_after_upload_pitch4 (tw th : Nat) (image : Image) (r c : Nat)
    (hr : r < th) (hc : c < tw) :
    SDL_Texture.texel { w := tw, h := th, bytes := uploadBytes tw th image.GetPixels 4 } r c =
      image.pixel (r + c) := by
  unfold SDL_Texture.texel Image.pixel
  apply List.map_congr_left
  intro k hk
  have hk4 : k < 4 := by simpa using hk
  show (uploadBytes tw th image.GetPixels 4).getD ((r * tw + c) * 4 + k) 0 = _
  rw [uploadBytes_getD tw th _ 4 r c k hr hc hk4]
  show image.pixels.getD _ 0 = image.pixels.getD _ 0
  congr 1
  ring

theorem u32ToInt_toNat (n : Nat) (h : n < 2 ^ 31) : (u32ToInt n).toNat = n := by
  unfold u32ToInt
  rw [if_pos h]
  exact Int.toNat_natCast n

/-- After a successful `SetupImage` of an image whose sizes are below `2 ^ 31`,
the texture bound to the image is live, has the image's size, and holds the
bytes of a pitch-4 upload, so that its texel at row `r`, column `c` is the
pixel of index `r + c`. -/
theorem SetupImage_texture (w : Sdl) (b : SdlBackend) (image : Image)
    (w1 : Sdl) (image1 : Image) (h : SetupImage w b image = some (w1, image1))
    (hw : image.width < 2 ^ 31) (hh : image.height < 2 ^ 31) :
    ∃ t, w1.textures.lookup image1.backendData = some t ∧
      t.w = image.width ∧ t.h = image.height ∧
      ∀ r c, r < image.height → c < image.width → t.texel r c = image.pixel (r + c) := by
  unfold SetupImage at h
  simp only [Image.GetSize, SDL_CreateTexture, Image.GetPixels] at h
  rw [u32ToInt_toNat _ hw, u32ToInt_toNat _ hh] at h
  generalize w.createResults.headD 0 = p at h
  by_cases hp : p = 0
  · rw [if_pos hp] at h
    simp at h
  · rw [if_neg hp] at h
    simp only [hp, if_false, Option.some.injEq, Prod.mk.injEq] at h
    obtain ⟨hw1, himg⟩ := h
    subst hw1 himg
    refine ⟨{ w := image.width, h := image.height,
              bytes := uploadBytes image.width image.height image.GetPixels 4 }, ?_, rfl, rfl, ?_⟩
    · simp [SDL_UpdateTexture, Sdl.call, List.lookup_cons, Image.GetPixels]
    · intro r c hr hc
      exact texel_after_upload_pitch4 image.width image.height image r c hr hc

theorem u32ToFloat_exact (n : Nat) (h : n < 2 ^ 24) : u32ToFloat n = n := by
  unfold u32ToFloat
  rw [if_pos h]

/-- The value of `Nat.log2` from the two powers of two around the number. -/
theorem log2_of_bounds (n k : Nat) (h1 : 2 ^ k ≤ n) (h2 : n < 2 ^ (k + 1)) :
    Nat.log2 n = k := by
  have hn : n ≠ 0 := by
    have : 0 < 2 ^ k := Nat.two_pow_pos k
    omega
  rw [Nat.log2_eq_log_two]
  exact (Nat.log_eq_iff (Or.inr ⟨by decide, hn⟩)).2 ⟨h1, h2⟩

/-- The conversion to float leaves a number as it is exactly when a float holds
the number. -/
theorem u32ToFloat_eq_self_iff (n : Nat) : u32ToFloat n = n ↔ isFloat32 n := by
  unfold isFloat32
  by_cases hn : n < 2 ^ 24
  · exact ⟨fun _ => Or.inl hn, fun _ => u32ToFloat_exact n hn⟩
  · have hpos : 0 < 2 ^ (Nat.log2 n - 23) := Nat.two_pow_pos _
    constructor
    · intro h
      right
      unfold u32ToFloat at h
      rw [if_neg hn] at h
      simp only at h
      split_ifs at h
      all_goals exact Nat.dvd_iff_mod_eq_zero.mp (Dvd.intro_left _ h)
    · rintro (h | h)
      · exact absurd h hn
      · unfold u32ToFloat
        rw [if_neg hn]
        simp only [h, Nat.mul_zero, hpos, if_true]
        exact Nat.div_mul_cancel (Nat.dvd_of_mod_eq_zero h)

theorem isFloat32_of_le (n : Nat) (h : n ≤ 2 ^ 24) : isFloat32 n := by
  rcases Nat.lt_or_ge n (2 ^ 24) with h1 | h1
  · exact Or.inl h1
  · have : n = 2 ^ 24 := Nat.le_antisymm h h1
    subst this
    right
    rw [log2_of_bounds (2 ^ 24) 24 (by decide) (by decide)]
    decide

/-- The number 4294967040, which is `2 ^ 32 - 2 ^ 8`, is one a float holds. -/
theorem isFloat32_4294967040 : isFloat32 4294967040 := by
  right
  rw [log2_of_bounds 4294967040 31 (by decide) (by decide)]
  decide

/-- The float nearest to 16777217, which is `2 ^ 24 + 1`, is 16777216. -/
theorem u32ToFloat_16777217 : u32ToFloat 16777217 = 16777216 := by
  unfold u32ToFloat
  rw [if_neg (by decide)]
  simp only [log2_of_bounds 16777217 24 (by decide) (by decide)]
  decide

/-- The calls of `DrawImage` and `DrawSprite`, for all arguments: every field
of a rectangle is the float its unsigned integer converts to. -/
theorem Draw_requests_converted_rectangles (w : Sdl) (b : SdlBackend) (x y : Nat) :
    (∀ image : Image,
      (DrawImage w b image x y).calls = w.calls ++
        [.SetRenderTarget b.m_renderer 0,
         .RenderTexture b.m_renderer image.backendData none
            { x := u32ToFloat x, y := u32ToFloat y,
              w := u32ToFloat image.width, h := u32ToFloat image.height }]) ∧
    (∀ sprite : Sprite,
      (DrawSprite w b sprite x y).calls = w.calls ++
        [.SetRenderTarget b.m_renderer 0,
         .RenderTexture b.m_renderer sprite.sheet.backendData
            (some { x := u32ToFloat sprite.x, y := u32ToFloat sprite.y,
                    w := u32ToFloat sprite.width, h := u32ToFloat sprite.height })
            { x := u32ToFloat x, y := u32ToFloat y,
              w := u32ToFloat sprite.width, h := u32ToFloat sprite.height }]) := by
  refine ⟨?_, ?_⟩
  · intro image
    simp [DrawImage, Image.GetSize, Sdl.call]
  · intro sprite
    simp [DrawSprite, Sdl.call]

/-! ## The properties -/

/-- C1, evaluated on the code. The queue holds one event, of type quit, whose
window-id word equals the adapter's window id 1: `Update` returns true, and the
event has been polled. The claim says `Update` returns false on every queue that
holds a quit event. -/
theorem Update_true_on_quit_with_own_window_word :
    isQuit sdl3 quitWord1 ∧
    (Update sdl3 (sdlWithEvents [quitWord1]) sampleBackend).1 = true ∧
    (Update sdl3 (sdlWithEvents [quitWord1]) sampleBackend).2.1.pending = [] := by
  decide

/-- C2, evaluated on the code. `SetupImage` on the 2 by 2 image of bytes
0 .. 15 succeeds and binds the texture `0x3000`, whose texel at row 1, column 0
is the image's pixel 1 (bytes 4 .. 7), not the pixel of index `1 * 2 + 0`
(bytes 8 .. 11) that the claim names: the upload is made with a pitch of 4
bytes, not `2 * 4`. -/
theorem SetupImage_texel_row1_is_pixel1 :
    ∃ w1 image1 t,
      SetupImage sdlReadyToCreate sampleBackend image2x2 = some (w1, image1) ∧
      image1.backendData = 0x3000 ∧
      w1.textures.lookup image1.backendData = some t ∧
      w1.calls.getLast? = some (.UpdateTexture 0x3000 4) ∧
      t.texel 1 0 = [4, 5, 6, 7] ∧
      image2x2.pixel 1 = [4, 5, 6, 7] ∧
      image2x2.pixel (1 * 2 + 0) = [8, 9, 10, 11] ∧
      t.texel 1 0 ≠ image2x2.pixel (1 * image2x2.width + 0) := by
  refine ⟨_, _, _, rfl, rfl, rfl, ?_, ?_, ?_, ?_, ?_⟩ <;> decide

/-- C3. Handling a focus-lost event and then calling `BeginRender` returns
false; handling a focus-gained event after that and calling `BeginRender` again
returns true. In general, after any list of events has been handled,
`BeginRender` returns the value set by the last focus-gained or focus-lost
event of the list, or the flag from before when there is none; a constructed
adapter starts with the flag true. -/
theorem BeginRender_returns_last_focus (c : EventCodes) (b : SdlBackend) (w : Sdl) :
    (∀ lost gained : SDL_Event,
      lost.type = c.SDL_EVENT_WINDOW_FOCUS_LOST →
      gained.type = c.SDL_EVENT_WINDOW_FOCUS_GAINED →
      (BeginRender w (HandleEvent c b lost).2).1 = false ∧
      (BeginRender (BeginRender w (HandleEvent c b lost).2).2.1
        (HandleEvent c (BeginRender w (HandleEvent c b lost).2).2.2 gained).2).1 = true) ∧
    (∀ evs : List SDL_Event,
      (BeginRender w (handleEvents c b evs)).1 = lastFocus c b.m_windowInfo.focused evs) ∧
    (∀ (a : InitAnswers) (b0 : SdlBackend) (evs : List SDL_Event),
      SdlBackend.new a = some b0 →
      (BeginRender w (handleEvents c b0 evs)).1 = lastFocus c true evs) := by
  have key : ∀ (w0 : Sdl) (b1 : SdlBackend),
      (BeginRender w0 b1).1 = b1.m_windowInfo.focused ∧ (BeginRender w0 b1).2.2 = b1 := by
    intro w0 b1
    unfold BeginRender
    cases h : b1.m_windowInfo.focused <;> simp
  refine ⟨?_, ?_, ?_⟩
  · intro lost gained hl hg
    rw [(key _ _).1, (key _ _).2, (key _ _).1, HandleEvent_snd c _ gained, HandleEvent_snd c b lost]
    simp [lastFocus, hl, hg, setFocused_focused, c.gained_ne_lost.symm]
  · intro evs
    rw [(key _ _).1, handleEvents_eq, setFocused_focused]
  · intro a b0 evs hnew
    have hf : b0.m_windowInfo.focused = true := by
      unfold SdlBackend.new at hnew
      split_ifs at hnew
      cases hnew
      rfl
    rw [(key _ _).1, handleEvents_eq, setFocused_focused, hf]

/-- C4. When `SetupImage` succeeds, a following `CleanupImage` leaves the image
with a null `backendData`; between them the library has been asked to create
one texture, fill it, and destroy it, once each, and the texture is no longer
live. A second `CleanupImage` changes neither the library state nor the image,
and so does any `CleanupImage` on an image whose `backendData` is null. -/
theorem SetupImage_then_CleanupImage (w : Sdl) (b : SdlBackend) (image : Image)
    (w1 : Sdl) (image1 : Image) (h : SetupImage w b image = some (w1, image1)) :
    image1.backendData ≠ 0 ∧
    (CleanupImage w1 image1).2.backendData = 0 ∧
    (CleanupImage w1 image1).1.calls = w.calls ++
      [.CreateTexture b.m_renderer (u32ToInt image.width) (u32ToInt image.height)
          image1.backendData,
       .UpdateTexture image1.backendData 4,
       .DestroyTexture image1.backendData] ∧
    (CleanupImage w1 image1).1.textures.lookup image1.backendData = none ∧
    CleanupImage (CleanupImage w1 image1).1 (CleanupImage w1 image1).2 =
      CleanupImage w1 image1 ∧
    (∀ (w0 : Sdl) (img : Image), img.backendData = 0 → CleanupImage w0 img = (w0, img)) := by
  unfold SetupImage at h
  simp only [Image.GetSize, SDL_CreateTexture, Image.GetPixels] at h
  generalize w.createResults.headD 0 = p at h
  by_cases hp : p = 0
  · rw [if_pos hp] at h
    simp at h
  · rw [if_neg hp] at h
    simp only [hp, if_false, Option.some.injEq, Prod.mk.injEq] at h
    obtain ⟨hw1, himg⟩ := h
    subst hw1 himg
    refine ⟨hp, rfl, ?_, ?_, ?_, ?_⟩
    · simp [CleanupImage, hp, SDL_DestroyTexture, SDL_UpdateTexture, Sdl.call]
    · simp only [CleanupImage, hp, ne_eq, not_false_eq_true, if_true, SDL_DestroyTexture]
      rw [List.lookup_eq_none_iff]
      intro pt hpt
      simp only [List.mem_filter, decide_eq_true_eq] at hpt
      rw [bne_iff_ne]
      exact fun heq => hpt.2 heq.symm
    · simp [CleanupImage, hp]
    · intro w0 img h0
      obtain ⟨iw, ih, ipx, ibd⟩ := img
      simp only at h0
      subst h0
      simp [CleanupImage]

/-- C4 at a concrete input: the 2 by 2 sample image, set up in a library state
that grants the texture and then cleaned up twice. -/
theorem SetupImage_then_CleanupImage_sample :
    ∃ w1 image1,
      SetupImage sdlReadyToCreate sampleBackend image2x2 = some (w1, image1) ∧
      (CleanupImage w1 image1).2.backendData = 0 ∧
      (CleanupImage w1 image1).1.calls =
        [.CreateTexture 0x2000 2 2 0x3000, .UpdateTexture 0x3000 4, .DestroyTexture 0x3000] ∧
      CleanupImage (CleanupImage w1 image1).1 (CleanupImage w1 image1).2 =
        CleanupImage w1 image1 :=
  ⟨_, _, rfl,
    (SetupImage_then_CleanupImage sdlReadyToCreate sampleBackend image2x2 _ _ rfl).2.1,
    (SetupImage_then_CleanupImage sdlReadyToCreate sampleBackend image2x2 _ _ rfl).2.2.1,
    (SetupImage_then_CleanupImage sdlReadyToCreate sampleBackend image2x2 _ _ rfl).2.2.2.2.1⟩

/-- C5 as stated fails. `DrawImage` of the 2 by 2 sample image at the offset
(16777217, 0) asks for the destination rectangle {16777216, 0, 2, 2}: the
float nearest to 16777217 is 16777216, so the rectangle is not {x, y, w, h}. -/
theorem DrawImage_rounds_offset_16777217 :
    (DrawImage (sdlWithEvents []) sampleBackend image2x2 16777217 0).calls =
      [.SetRenderTarget 0x2000 0,
       .RenderTexture 0x2000 0 none { x := 16777216, y := 0, w := 2, h := 2 }] ∧
    (DrawImage (sdlWithEvents []) sampleBackend image2x2 16777217 0).calls ≠
      [.SetRenderTarget 0x2000 0,
       .RenderTexture 0x2000 0 none { x := 16777217, y := 0, w := 2, h := 2 }] := by
  have e := (Draw_requests_converted_rectangles (sdlWithEvents []) sampleBackend
    16777217 0).1 image2x2
  rw [u32ToFloat_16777217] at e
  rw [e]
  exact ⟨by decide, by decide⟩

/-- C5, amended. When the offset `x`, `y` are numbers a float holds exactly
(every number up to `2 ^ 24` is one): for every image whose width and height
are such numbers, `DrawImage` asks for one render of the image's texture with a
null source rectangle and the destination rectangle exactly `{x, y, w, h}`; for
every sprite whose declared `sx`, `sy`, `sw`, `sh` are such numbers,
`DrawSprite` asks for one render of the sheet's texture with the source
rectangle exactly `{sx, sy, sw, sh}` and the destination rectangle exactly
`{x, y, sw, sh}`. -/
theorem Draw_requests_exact_rectangles_of_float_exact (w : Sdl) (b : SdlBackend)
    (x y : Nat) (hx : isFloat32 x) (hy : isFloat32 y) :
    (∀ image : Image, isFloat32 image.width → isFloat32 image.height →
      (DrawImage w b image x y).calls = w.calls ++
        [.SetRenderTarget b.m_renderer 0,
         .RenderTexture b.m_renderer image.backendData none
            { x := x, y := y, w := image.width, h := image.height }]) ∧
    (∀ sprite : Sprite, isFloat32 sprite.x → isFloat32 sprite.y →
      isFloat32 sprite.width → isFloat32 sprite.height →
      (DrawSprite w b sprite x y).calls = w.calls ++
        [.SetRenderTarget b.m_renderer 0,
         .RenderTexture b.m_renderer sprite.sheet.backendData
            (some { x := sprite.x, y := sprite.y, w := sprite.width, h := sprite.height })
            { x := x, y := y, w := sprite.width, h := sprite.height }]) ∧
    (∀ n : Nat, n ≤ 2 ^ 24 → isFloat32 n) := by
  have ex := (u32ToFloat_eq_self_iff x).2 hx
  have ey := (u32ToFloat_eq_self_iff y).2 hy
  refine ⟨?_, ?_, isFloat32_of_le⟩
  · intro image hw hh
    rw [(Draw_requests_converted_rectangles w b x y).1 image, ex, ey,
      (u32ToFloat_eq_self_iff _).2 hw, (u32ToFloat_eq_self_iff _).2 hh]
  · intro sprite hsx hsy hsw hsh
    rw [(Draw_requests_converted_rectangles w b x y).2 sprite, ex, ey,
      (u32ToFloat_eq_self_iff _).2 hsx, (u32ToFloat_eq_self_iff _).2 hsy,
      (u32ToFloat_eq_self_iff _).2 hsw, (u32ToFloat_eq_self_iff _).2 hsh]

/-- C5, amended, at concrete inputs: the 2 by 2 sample image drawn at
(100, 4294967040), the second a number above `2 ^ 24` that a float holds, and
the sample sprite drawn there. -/
theorem Draw_requests_exact_rectangles_sample :
    isFloat32 100 ∧ isFloat32 4294967040 ∧
    (DrawImage (sdlWithEvents []) sampleBackend image2x2 100 4294967040).calls =
      [.SetRenderTarget 0x2000 0,
       .RenderTexture 0x2000 0 none { x := 100, y := 4294967040, w := 2, h := 2 }] ∧
    (DrawSprite (sdlWithEvents []) sampleBackend sampleSprite 100 4294967040).calls =
      [.SetRenderTarget 0x2000 0,
       .RenderTexture 0x2000 0 (some { x := 16, y := 32, w := 8, h := 8 })
          { x := 100, y := 4294967040, w := 8, h := 8 }] :=
  ⟨Or.inl (by decide), isFloat32_4294967040,
    (Draw_requests_exact_rectangles_of_float_exact (sdlWithEvents []) sampleBackend
      100 4294967040 (Or.inl (by decide)) isFloat32_4294967040).1 image2x2
      (Or.inl (by decide)) (Or.inl (by decide)),
    (Draw_requests_exact_rectangles_of_float_exact (sdlWithEvents []) sampleBackend
      100 4294967040 (Or.inl (by decide)) isFloat32_4294967040).2.1 sampleSprite
      (Or.inl (by decide)) (Or.inl (by decide)) (Or.inl (by decide)) (Or.inl (by decide))⟩

/-- C6. When no pending event is a quit event or a focus-gained or focus-lost
event, `Update` returns true, empties the queue, and leaves the focus flag and
the stored width and height, indeed the whole adapter, as they were. -/
theorem Update_ignores_other_events (c : EventCodes) (w : Sdl) (b : SdlBackend)
    (h : ∀ e ∈ w.pending, ¬ isQuit c e ∧ ¬ isFocus c e) :
    (Update c w b).1 = true ∧
    (Update c w b).2.2.m_windowInfo.focused = b.m_windowInfo.focused ∧
    (Update c w b).2.2.m_windowInfo.width = b.m_windowInfo.width ∧
    (Update c w b).2.2.m_windowInfo.height = b.m_windowInfo.height ∧
    (Update c w b).2.2 = b ∧
    (Update c w b).2.1.pending = [] := by
  have hres : ∀ (xs : List SDL_Event) (b0 : SdlBackend),
      (∀ e ∈ xs, ¬ isQuit c e ∧ ¬ isFocus c e) → handleResults c b0 xs = true := by
    intro xs
    induction xs with
    | nil => intros; rfl
    | cons x xs ih =>
      intro b0 hall
      have hx : (HandleEvent c b0 x).1 = true := by
        have h1 := (hall x (List.mem_cons_self _ _)).1
        have h2 : ¬ (HandleEvent c b0 x).1 = false := fun hf =>
          h1 ((HandleEvent_fst c b0 x).1 hf).1
        simpa using h2
      simp only [handleResults, hx, Bool.true_and]
      exact ih _ (fun y hy => hall y (List.mem_cons_of_mem _ hy))
  have hfoc : ∀ (xs : List SDL_Event) (v : Bool),
      (∀ e ∈ xs, ¬ isQuit c e ∧ ¬ isFocus c e) → lastFocus c v xs = v := by
    intro xs
    induction xs with
    | nil => intros; rfl
    | cons x xs ih =>
      intro v hall
      have h2 := (hall x (List.mem_cons_self _ _)).2
      have hg : x.type ≠ c.SDL_EVENT_WINDOW_FOCUS_GAINED := fun hh => h2 (Or.inl hh)
      have hl : x.type ≠ c.SDL_EVENT_WINDOW_FOCUS_LOST := fun hh => h2 (Or.inr hh)
      simp only [lastFocus, hg, hl, if_false]
      exact ih _ (fun y hy => hall y (List.mem_cons_of_mem _ hy))
  have hloop := UpdateLoop_of_all_true c b w.pending (hres _ b h)
  have hb : (Update c w b).2.2 = b := by
    unfold Update
    rw [hloop]
    show handleEvents c b w.pending = b
    rw [handleEvents_eq, hfoc _ _ h]
    rfl
  have h1 : (Update c w b).1 = true := by unfold Update; rw [hloop]
  have h2 : (Update c w b).2.1.pending = [] := by unfold Update; rw [hloop]
  rw [hb]
  exact ⟨h1, rfl, rfl, rfl, rfl, h2⟩

/-- C6 at concrete inputs: a queue of a resize event and a key-down event, and
the empty queue. -/
theorem Update_ignores_other_events_sample :
    (∀ e ∈ (sdlWithEvents [resizedOfWindow1, keyDownOfWindow1]).pending,
      ¬ isQuit sdl3 e ∧ ¬ isFocus sdl3 e) ∧
    (Update sdl3 (sdlWithEvents [resizedOfWindow1, keyDownOfWindow1]) sampleBackend).1 = true ∧
    (Update sdl3 (sdlWithEvents [resizedOfWindow1, keyDownOfWindow1]) sampleBackend).2.2 =
      sampleBackend ∧
    (Update sdl3 (sdlWithEvents []) sampleBackend).1 = true ∧
    (Update sdl3 (sdlWithEvents []) sampleBackend).2.2 = sampleBackend :=
  ⟨by decide,
    (Update_ignores_other_events sdl3 (sdlWithEvents [resizedOfWindow1, keyDownOfWindow1])
      sampleBackend (by decide)).1,
    (Update_ignores_other_events sdl3 (sdlWithEvents [resizedOfWindow1, keyDownOfWindow1])
      sampleBackend (by decide)).2.2.2.2.1,
    (Update_ignores_other_events sdl3 (sdlWithEvents []) sampleBackend
      (by intro e he; cases he)).1,
    (Update_ignores_other_events sdl3 (sdlWithEvents []) sampleBackend
      (by intro e he; cases he)).2.2.2.2.1⟩

/-- C7. On a resize event, whatever the window id and the new dimensions it
carries, `HandleEvent` returns true and leaves the adapter as it was: the
stored width and height, the focus flag and the window id are unchanged. -/
theorem HandleEvent_resize_changes_nothing (c : EventCodes) (b : SdlBackend)
    (windowID : Nat) (data1 data2 : Int) :
    HandleEvent c b
        { type := c.SDL_EVENT_WINDOW_RESIZED, windowID := windowID,
          data1 := data1, data2 := data2 } = (true, b) ∧
    (HandleEvent c b
        { type := c.SDL_EVENT_WINDOW_RESIZED, windowID := windowID,
          data1 := data1, data2 := data2 }).2.m_windowInfo.width = b.m_windowInfo.width ∧
    (HandleEvent c b
        { type := c.SDL_EVENT_WINDOW_RESIZED, windowID := windowID,
          data1 := data1, data2 := data2 }).2.m_windowInfo.height = b.m_windowInfo.height ∧
    (HandleEvent c b
        { type := c.SDL_EVENT_WINDOW_RESIZED, windowID := windowID,
          data1 := data1, data2 := data2 }).2.m_windowInfo.focused = b.m_windowInfo.focused ∧
    (HandleEvent c b
        { type := c.SDL_EVENT_WINDOW_RESIZED, windowID := windowID,
          data1 := data1, data2 := data2 }).2.m_windowId = b.m_windowId := by
  have h : HandleEvent c b
      { type := c.SDL_EVENT_WINDOW_RESIZED, windowID := windowID,
        data1 := data1, data2 := data2 } = (true, b) := by
    unfold HandleEvent
    simp [c.resized_ge_first, c.gained_ne_resized.symm, c.lost_ne_resized.symm]
  rw [h]
  exact ⟨rfl, rfl, rfl, rfl, rfl⟩

/-- C8, evaluated on the code. The adapter owns window 1 and is focused; a
focus-lost event of window 2 is handled: the focus flag becomes false. The
claim says the flag is left unchanged by a focus event of another window. -/
theorem HandleEvent_takes_focus_event_of_other_window :
    focusLostOfWindow2.windowID ≠ sampleBackend.m_windowId ∧
    sampleBackend.m_windowInfo.focused = true ∧
    (HandleEvent sdl3 sampleBackend focusLostOfWindow2).2.m_windowInfo.focused = false := by
  decide

/-- C9 as stated fails. The queue holds a quit event (window-id word 0, the
adapter owns window 1) followed by a focus-lost event: `Update` returns at the
quit event, and the focus-lost event is still pending. -/
theorem Update_returns_before_queue_is_empty :
    ¬ (Update sdl3 (sdlWithEvents [quitWord0, focusLostOfWindow1]) sampleBackend).2.1.pending
        = [] := by
  decide

/-- C9, amended. One call of `Update` polls and handles the pending events in
queue order up to and including the first one on which `HandleEvent` returns
false: when there is none it returns true with the queue empty and every event
handled; otherwise it returns false, the events after that one are still
pending, and the events up to it have been handled. In both cases the returned
flag is the conjunction of the results of `HandleEvent` over all events of the
queue, and nothing else of the library state changes. -/
theorem Update_polls_until_first_stop (c : EventCodes) (w : Sdl) (b : SdlBackend) :
    (Update c w b).1 = handleResults c b w.pending ∧
    ((Update c w b).1 = true →
      (Update c w b).2.1.pending = [] ∧
      (Update c w b).2.2 = handleEvents c b w.pending) ∧
    ((Update c w b).1 = false →
      ∃ pre e post, w.pending = pre ++ e :: post ∧
        handleResults c b pre = true ∧
        (HandleEvent c (handleEvents c b pre) e).1 = false ∧
        (Update c w b).2.1.pending = post ∧
        (Update c w b).2.2 = handleEvents c b (pre ++ [e])) ∧
    (Update c w b).2.1.createResults = w.createResults ∧
    (Update c w b).2.1.textures = w.textures ∧
    (Update c w b).2.1.calls = w.calls := by
  have hflag : (Update c w b).1 = handleResults c b w.pending := UpdateLoop_fst c b w.pending
  refine ⟨hflag, ?_, ?_, rfl, rfl, rfl⟩
  · intro ht
    rw [hflag] at ht
    have hloop := UpdateLoop_of_all_true c b w.pending ht
    unfold Update
    rw [hloop]
    exact ⟨rfl, rfl⟩
  · intro hf
    rw [hflag] at hf
    obtain ⟨pre, e, post, hq, hpre, he⟩ := exists_first_stop c b w.pending hf
    refine ⟨pre, e, post, hq, hpre, he, ?_, ?_⟩
    · unfold Update
      rw [hq, UpdateLoop_at_first_stop c b pre e post hpre he]
    · unfold Update
      rw [hq, UpdateLoop_at_first_stop c b pre e post hpre he, handleEvents_append]
      rfl

/-- C10. `BeginRender` returns false exactly when the focus flag is false, and
then makes no library call; when the flag is true it sets the draw colour to
(255, 255, 255, 255), clears, and returns true. It never changes the adapter,
nor anything of the library state except the record of calls. -/
theorem BeginRender_throttles_on_focus (w : Sdl) (b : SdlBackend) :
    ((BeginRender w b).1 = false ↔ b.m_windowInfo.focused = false) ∧
    ((BeginRender w b).2.1.calls = w.calls ↔ b.m_windowInfo.focused = false) ∧
    (b.m_windowInfo.focused = false → (BeginRender w b).2.1 = w) ∧
    (b.m_windowInfo.focused = true →
      (BeginRender w b).1 = true ∧
      (BeginRender w b).2.1.calls = w.calls ++
        [.SetRenderDrawColor b.m_renderer 255 255 255 255, .RenderClear b.m_renderer]) ∧
    (BeginRender w b).2.2 = b ∧
    (BeginRender w b).2.1.pending = w.pending ∧
    (BeginRender w b).2.1.textures = w.textures ∧
    (BeginRender w b).2.1.createResults = w.createResults := by
  unfold BeginRender
  cases h : b.m_windowInfo.focused <;> simp [Sdl.call]

end SdlGame
